import Mathlib

set_option maxHeartbeats 1000000

/-!
Shallow embedding of the Beurer BF 700 Home Assistant integration
(`custom_components/beurer_bf700`): the notification frame decoder, the
per-sensor update methods, the per-tick `async_update` session, and the
entity set created by `async_setup_entry`.  Byte buffers are `List Nat`
(a Python `bytearray` holds values 0..255; range hypotheses are made
explicit where a property needs them), fractional values are `ℚ`.
-/

/-- Protocol constant from `const.py`: `CMD_START = 0xF7`. -/
def CMD_START : Nat := 0xF7

/-- Protocol constant from `const.py`: `CMD_INIT = 0xF6`. -/
def CMD_INIT : Nat := 0xF6

/-- Protocol constant from `const.py`: `CMD_SYNC = 0xF9`. -/
def CMD_SYNC : Nat := 0xF9

/-- The frame header byte the notification handler requires at `data[0]`
(`data[0] != 0xF7` rejects the buffer). -/
def FRAME_MARKER : Nat := 0xF7

/-- The decoded measurement dictionary built by `_notification_handler`:
weight in kilograms plus four optional percentage fields (`None` in Python
is `none` here). -/
structure Measurement where
  weight : ℚ
  body_fat : Option ℚ
  body_water : Option ℚ
  muscle_mass : Option ℚ
  bone_mass : Option ℚ
deriving DecidableEq

deriving instance DecidableEq for Except

/-- The two rejection reasons of the guard
`if len(data) < 20 or data[0] != 0xF7: return` in `_notification_handler`;
the short-circuit `or` checks length first. -/
inductive DecodeError where
  | tooShort
  | badHeader
deriving DecidableEq

/-- One optional percentage field: `data[i] / 10 if data[i] != 0xFF else None`. -/
def decodePercent (b : Nat) : Option ℚ :=
  if b ≠ 0xFF then some ((b : ℚ) / 10) else none

/-- The measurement dictionary literal of `_notification_handler`:
`weight = int.from_bytes(data[2:4], "little") / 100` and the four
`decodePercent` fields at offsets 4..7. -/
def mkMeasurement (data : List Nat) : Measurement where
  weight := ((data.getD 2 0 + 256 * data.getD 3 0 : Nat) : ℚ) / 100
  body_fat := decodePercent (data.getD 4 0)
  body_water := decodePercent (data.getD 5 0)
  muscle_mass := decodePercent (data.getD 6 0)
  bone_mass := decodePercent (data.getD 7 0)

/-- The pure decoding step of `_notification_handler`: the guard
`if len(data) < 20 or data[0] != 0xF7: return` followed by the dictionary
construction.  The error tag records which disjunct of the short-circuit
`or` fired. -/
def decode_notification (data : List Nat) : Except DecodeError Measurement :=
  if data.length < 20 then .error .tooShort
  else if data.getD 0 0 ≠ FRAME_MARKER then .error .badHeader
  else .ok (mkMeasurement data)

/-- The mutable per-entity state touched by `_notification_handler` and
`_update_from_measurement`: `_measurement_data`, `_attr_native_value` and
`_last_measurement_time` (time as an abstract `Nat` tick). -/
structure BaseState where
  measurement_data : Option Measurement
  native_value : Option ℚ
  last_measurement_time : Option Nat
deriving DecidableEq

/-- Embedding of `BeurerBaseSensor._notification_handler`: on guard failure return with no
mutation; otherwise store the decoded dictionary, stamp the time, and run the
subclass hook `_update_from_measurement` (passed in as `upd`). -/
def notification_handler (upd : BaseState → BaseState) (now : Nat)
    (s : BaseState) (data : List Nat) : BaseState :=
  match decode_notification data with
  | .error _ => s
  | .ok m => upd { s with measurement_data := some m, last_measurement_time := some now }

/-- Embedding of `BeurerWeightSensor._update_from_measurement`: the dictionary always has a
`"weight"` key, so any stored measurement updates the value. -/
def weight_update (s : BaseState) : BaseState :=
  match s.measurement_data with
  | some m => { s with native_value := some m.weight }
  | none => s

/-- Embedding of `BeurerBodyFatSensor._update_from_measurement`: update only when
`measurement_data.get("body_fat") is not None`. -/
def body_fat_update (s : BaseState) : BaseState :=
  match s.measurement_data with
  | some m =>
    match m.body_fat with
    | some v => { s with native_value := some v }
    | none => s
  | none => s

/-- Embedding of `BeurerBodyWaterSensor._update_from_measurement`. -/
def body_water_update (s : BaseState) : BaseState :=
  match s.measurement_data with
  | some m =>
    match m.body_water with
    | some v => { s with native_value := some v }
    | none => s
  | none => s

/-- Embedding of `BeurerMuscleMassSensor._update_from_measurement`. -/
def muscle_mass_update (s : BaseState) : BaseState :=
  match s.measurement_data with
  | some m =>
    match m.muscle_mass with
    | some v => { s with native_value := some v }
    | none => s
  | none => s

/-- Embedding of `BeurerBoneMassSensor._update_from_measurement`. -/
def bone_mass_update (s : BaseState) : BaseState :=
  match s.measurement_data with
  | some m =>
    match m.bone_mass with
    | some v => { s with native_value := some v }
    | none => s
  | none => s

/-- The exceptions the session code can raise, as caught by the three
`except` clauses of `async_update`: `except BleakError`, `except TimeoutError`,
`except Exception` (everything raisable by the transport calls is an
`Exception` subclass). -/
inductive PyExc where
  | bleakError
  | timeoutError
  | otherError
deriving DecidableEq

/-- What `bluetooth.async_ble_device_from_address` reports about a sighted
device: the explicit connectable flag the code tests, plus the advertised
service/characteristic count (present in the advertisement, unused by the
code). -/
structure BLEDevice where
  connectable : Bool
  service_count : Nat
deriving DecidableEq

/-- One tick's external-world behaviour: the sighting result, the outcome of
each transport call of the session body in program order, and the
notification buffers delivered during the `asyncio.sleep(5)` window.  A
`some e` exception field means that call raises `e` (later steps do not
run); frames are delivered only after the sync write succeeds, since the
write is what triggers the device's data push. -/
structure Env where
  device : Option BLEDevice
  connect_exc : Option PyExc
  start_notify_exc : Option PyExc
  write_exc : Option PyExc
  frames : List (List Nat)
  stop_notify_exc : Option PyExc
deriving DecidableEq

/-- The readiness test of `async_update`: after the sighting check it
requires exactly `ble_device.connectable`. -/
def is_ready (d : BLEDevice) : Bool :=
  d.connectable

/-- Deliver each notification buffer of the sleep window to
`_notification_handler` in order. -/
def processFrames (upd : BaseState → BaseState) (now : Nat)
    (frames : List (List Nat)) (s : BaseState) : BaseState :=
  frames.foldl (notification_handler upd now) s

/-- The body of `async with BleakClient(...)`: `start_notify`, the sync
write, the sleep window in which notifications arrive, `stop_notify`.
Returns the entity state after the body and the exception it raised, if
any; Python mutations made before a raise persist. -/
def session_body (upd : BaseState → BaseState) (now : Nat) (env : Env)
    (s : BaseState) : BaseState × Option PyExc :=
  match env.start_notify_exc with
  | some e => (s, some e)
  | none =>
    match env.write_exc with
    | some e => (s, some e)
    | none =>
      let s' := processFrames upd now env.frames s
      (s', env.stop_notify_exc)

/-- Result of one `async_update` tick: the entity state, whether a connect
was attempted, whether a connection handle or notification subscription is
still live afterwards, and any exception escaping the method. -/
structure UpdateResult where
  state : BaseState
  connect_attempted : Bool
  handle_open : Bool
  notifying : Bool
  escaped : Option PyExc
deriving DecidableEq

/-- The three `except` clauses at the end of `async_update`: `BleakError`,
`TimeoutError` and `Exception` are all logged and swallowed. -/
def catchClauses (e : PyExc) : Option PyExc :=
  match e with
  | .bleakError => none
  | .timeoutError => none
  | .otherError => none

/-- Embedding of `BeurerBaseSensor.async_update`, one tick: look the device up without
requiring connectable, return if absent; return if not `connectable`;
otherwise connect inside `async with BleakClient(...)`, whose `__aexit__`
disconnects on every exit of the body (normal or raising), closing the
handle and ending the notification stream; a connect failure raises out of
`__aenter__` with no handle left open.  All raised exceptions are handled
by `catchClauses`. -/
def async_update (upd : BaseState → BaseState) (now : Nat) (env : Env)
    (s : BaseState) : UpdateResult :=
  match env.device with
  | none =>
    { state := s, connect_attempted := false, handle_open := false,
      notifying := false, escaped := none }
  | some dev =>
    if is_ready dev then
      match env.connect_exc with
      | some e =>
        { state := s, connect_attempted := true, handle_open := false,
          notifying := false, escaped := catchClauses e }
      | none =>
        let body := session_body upd now env s
        { state := body.1, connect_attempted := true, handle_open := false,
          notifying := false, escaped := body.2.bind catchClauses }
    else
      { state := s, connect_attempted := false, handle_open := false,
        notifying := false, escaped := none }

/-- A tick that obtains no decodable frame: the device was not sighted, or
was sighted but not connectable, or the connect raised, or `start_notify`
or the sync write raised before any frame, or every buffer delivered in the
window failed to decode (the frame-wait elapsing with only malformed or no
notifications). -/
def cycleFailed (env : Env) : Bool :=
  match env.device with
  | none => true
  | some dev =>
    !is_ready dev || env.connect_exc.isSome || env.start_notify_exc.isSome ||
    env.write_exc.isSome ||
    env.frames.all (fun f => !(decode_notification f).toBool)

/-- One sensor entity as registered by `async_setup_entry`: the configured
device address and the entity-description key. -/
structure Entity where
  address : String
  key : String
deriving DecidableEq

/-- Embedding of `sensor.async_setup_entry`: five independently polled entities are
created for the one configured address. -/
def async_setup_entry (address : String) : List Entity :=
  [⟨address, "weight"⟩, ⟨address, "body_fat"⟩, ⟨address, "body_water"⟩,
   ⟨address, "muscle_mass"⟩, ⟨address, "bone_mass"⟩]

/-- Whether an entity's `async_update` session is currently executing. -/
inductive Phase where
  | idle
  | inSession
deriving DecidableEq

/-- A scheduling event: entity `i`'s poll tick starts its update session, or
entity `i`'s running session finishes. -/
inductive TickEvent where
  | start (i : Nat)
  | finish (i : Nat)
deriving DecidableEq

/-- Modelled from the spec: the host platform's poll scheduler (external to
this repository) polls each entity independently on `SCAN_INTERVAL` and
skips a tick for an entity whose own previous update is still running, so
`start i` is accepted only when entity `i` is idle.  Nothing in the
integration's own code imposes any cross-entity condition: `async_update`
holds no per-address lock, so starting entity `i` is permitted while other
entities of the same address are mid-session. -/
def applyTick (st : List Phase) : TickEvent → Option (List Phase)
  | .start i =>
    match st.get? i with
    | some Phase.idle => some (st.set i Phase.inSession)
    | _ => none
  | .finish i =>
    match st.get? i with
    | some Phase.inSession => some (st.set i Phase.idle)
    | _ => none

/-- Run a sequence of scheduling events; `none` when an event was not
permitted. -/
def runTicks (st : List Phase) : List TickEvent → Option (List Phase)
  | [] => some st
  | e :: es =>
    match applyTick st e with
    | some st' => runTicks st' es
    | none => none

/-- All entities created for an address start idle. -/
def initPhases (address : String) : List Phase :=
  (async_setup_entry address).map (fun _ => Phase.idle)

/-- Number of sessions currently in flight across the entities of the
address. -/
def inFlight (st : List Phase) : Nat :=
  st.countP (fun p => decide (p = Phase.inSession))

/-- Modelled from the spec: the Readiness Detector policy as §4.2 states it —
connectable flag AND/OR advertised service/characteristic count at or above
the configured threshold.  Stated only to compare with the code's
`is_ready`. -/
def is_ready_spec (threshold : Nat) (d : BLEDevice) : Bool :=
  d.connectable || decide (threshold ≤ d.service_count)

/-- A canonical 20-byte frame carrying weight `w` as two little-endian bytes
at offsets 2 and 3, zero elsewhere. -/
def weightFrame (w : Nat) : List Nat :=
  [FRAME_MARKER, 0, w % 256, w / 256, 0, 0, 0, 0, 0, 0, 0, 0, 0, 0, 0, 0, 0, 0, 0, 0]

/-- The 20-byte end-to-end example buffer of the spec: `F7 00 B4 16 FF 32 FF FF`
followed by 12 zero bytes. -/
def endToEndBuf : List Nat :=
  [0xF7, 0x00, 0xB4, 0x16, 0xFF, 0x32, 0xFF, 0xFF, 0, 0, 0, 0, 0, 0, 0, 0, 0, 0, 0, 0]

/-- A 20-byte buffer whose first byte is not the frame marker. -/
def badHeaderBuf : List Nat :=
  List.replicate 20 0

/-- A concrete well-formed frame used to instantiate the decoder layout
theorem. -/
def c1buf : List Nat :=
  [0xF7, 0, 0x10, 0x27, 0x64, 0xFF, 0, 0x7F, 0, 0, 0, 0, 0, 0, 0, 0, 0, 0, 0, 0]

/-- A decoded optional percentage field is valid: absent, or a value in
[0, 100) that is not the sentinel reading 25.5. -/
def validPercentField (o : Option ℚ) : Prop :=
  o = none ∨ ∃ v, o = some v ∧ 0 ≤ v ∧ v < 100 ∧ v ≠ (255 : ℚ) / 10

/-- A fresh entity state: nothing measured or reported yet. -/
def emptyState : BaseState :=
  { measurement_data := none, native_value := none, last_measurement_time := none }

/-- An entity state that has already reported the value 1. -/
def c10state : BaseState :=
  { measurement_data := none, native_value := some 1, last_measurement_time := none }

/-- An environment in which the device is not sighted at all. -/
def notSightedEnv : Env :=
  { device := none, connect_exc := none, start_notify_exc := none,
    write_exc := none, frames := [], stop_notify_exc := none }

/-- A sighted device advertising many services but flagged not connectable. -/
def notConnectableDev : BLEDevice :=
  { connectable := false, service_count := 20 }

/-- An environment whose only content is sighting that non-connectable
device. -/
def notConnectableEnv : Env :=
  { device := some notConnectableDev, connect_exc := none, start_notify_exc := none,
    write_exc := none, frames := [], stop_notify_exc := none }

/-- An environment with a connectable device whose connect raises a
`BleakError`. -/
def connectFailEnv : Env :=
  { device := some { connectable := true, service_count := 3 },
    connect_exc := some PyExc.bleakError, start_notify_exc := none,
    write_exc := none, frames := [], stop_notify_exc := none }

/-- Long enough and marker present: the decoder accepts and builds the
measurement dictionary. -/
theorem decode_eq_ok (data : List Nat) (hlen : 20 ≤ data.length)
    (hhdr : data.getD 0 0 = FRAME_MARKER) :
    decode_notification data = .ok (mkMeasurement data) := by
  unfold decode_notification
  rw [if_neg (by omega), if_neg (fun hne => hne hhdr)]

/-- A successful decode means the buffer passed both guards and the result is
the measurement dictionary of the buffer. -/
theorem decode_ok_elim (data : List Nat) (m : Measurement)
    (h : decode_notification data = .ok m) :
    20 ≤ data.length ∧ data.getD 0 0 = FRAME_MARKER ∧ m = mkMeasurement data := by
  unfold decode_notification at h
  split at h
  · exact absurd h (by simp)
  · split at h
    · exact absurd h (by simp)
    · next h1 h2 =>
      refine ⟨by omega, not_not.mp h2, ?_⟩
      cases h
      rfl

/-- Every byte read through `getD` inside the buffer's length is a byte of the
buffer. -/
theorem getD_byte_bound (data : List Nat) (hbytes : ∀ b ∈ data, b < 256)
    (i : Nat) (hi : i < data.length) : data.getD i 0 < 256 := by
  rw [List.getD_eq_getElem data 0 hi]
  exact hbytes _ (List.getElem_mem hi)

/-- A percentage byte below 256 decodes to a valid optional field. -/
theorem decodePercent_valid (b : Nat) (hb : b < 256) :
    validPercentField (decodePercent b) := by
  unfold decodePercent validPercentField
  rcases eq_or_ne b 0xFF with h | h
  · left
    simp [h]
  · right
    refine ⟨(b : ℚ) / 10, by simp [h], by positivity, ?_, ?_⟩
    · rw [div_lt_iff₀ (by norm_num)]
      have hq : (b : ℚ) < 256 := by exact_mod_cast hb
      linarith
    · intro hc
      apply h
      have hq : (b : ℚ) = 255 := by
        field_simp at hc
        exact_mod_cast hc
      exact_mod_cast hq

/-- Claim C1: every buffer of length at least 20 headed by `FRAME_MARKER`
decodes to a measurement whose weight is the 2-byte little-endian integer at
offsets [2,4) divided by 100 — weight decoding round-trips for every integer
in [0, 65535] — and whose four percentage fields come from the bytes at
offsets 4, 5, 6 and 7, absent exactly when the byte is `0xFF` and the byte
divided by 10 for every other value. -/
theorem decoder_field_layout (data : List Nat)
    (hlen : 20 ≤ data.length) (hhdr : data.getD 0 0 = FRAME_MARKER) :
    (∃ m, decode_notification data = .ok m ∧
      m.weight = ((data.getD 2 0 + 256 * data.getD 3 0 : Nat) : ℚ) / 100 ∧
      m.body_fat = (if data.getD 4 0 = 0xFF then none else some ((data.getD 4 0 : ℚ) / 10)) ∧
      m.body_water = (if data.getD 5 0 = 0xFF then none else some ((data.getD 5 0 : ℚ) / 10)) ∧
      m.muscle_mass = (if data.getD 6 0 = 0xFF then none else some ((data.getD 6 0 : ℚ) / 10)) ∧
      m.bone_mass = (if data.getD 7 0 = 0xFF then none else some ((data.getD 7 0 : ℚ) / 10))) ∧
    (∀ w : Nat, w ≤ 65535 →
      ∃ m, decode_notification (weightFrame w) = .ok m ∧ m.weight = (w : ℚ) / 100) := by
  constructor
  · refine ⟨mkMeasurement data, decode_eq_ok data hlen hhdr, rfl, ?_, ?_, ?_, ?_⟩
    · rcases eq_or_ne (data.getD 4 0) 0xFF with h | h <;>
        simp [mkMeasurement, decodePercent, h]
    · rcases eq_or_ne (data.getD 5 0) 0xFF with h | h <;>
        simp [mkMeasurement, decodePercent, h]
    · rcases eq_or_ne (data.getD 6 0) 0xFF with h | h <;>
        simp [mkMeasurement, decodePercent, h]
    · rcases eq_or_ne (data.getD 7 0) 0xFF with h | h <;>
        simp [mkMeasurement, decodePercent, h]
  · intro w hw
    refine ⟨mkMeasurement (weightFrame w),
      decode_eq_ok _ (by simp [weightFrame]) (by simp [weightFrame]), ?_⟩
    show ((((weightFrame w).getD 2 0) + 256 * ((weightFrame w).getD 3 0) : Nat) : ℚ) / 100
        = (w : ℚ) / 100
    have h2 : (weightFrame w).getD 2 0 = w % 256 := rfl
    have h3 : (weightFrame w).getD 3 0 = w / 256 := rfl
    rw [h2, h3, Nat.mod_add_div]

/-- Claim C1 witness at a concrete frame. -/
theorem decoder_field_layout_witness :
    (∃ m, decode_notification c1buf = .ok m ∧
      m.weight = ((c1buf.getD 2 0 + 256 * c1buf.getD 3 0 : Nat) : ℚ) / 100 ∧
      m.body_fat = (if c1buf.getD 4 0 = 0xFF then none else some ((c1buf.getD 4 0 : ℚ) / 10)) ∧
      m.body_water = (if c1buf.getD 5 0 = 0xFF then none else some ((c1buf.getD 5 0 : ℚ) / 10)) ∧
      m.muscle_mass = (if c1buf.getD 6 0 = 0xFF then none else some ((c1buf.getD 6 0 : ℚ) / 10)) ∧
      m.bone_mass = (if c1buf.getD 7 0 = 0xFF then none else some ((c1buf.getD 7 0 : ℚ) / 10))) ∧
    (∀ w : Nat, w ≤ 65535 →
      ∃ m, decode_notification (weightFrame w) = .ok m ∧ m.weight = (w : ℚ) / 100) :=
  decoder_field_layout c1buf (by decide) (by decide)

/-- Claim C3 counterexample: the spec's example buffer decodes with weight
58.12 kg (0x16B4 = 5812 centigrams), not the claimed 58.04 kg; the claimed
measurement record is not the decoder's output. -/
theorem end_to_end_weight_counterexample :
    decode_notification endToEndBuf ≠
      Except.ok { weight := (5804 : ℚ) / 100, body_fat := none,
                  body_water := some 5, muscle_mass := none, bone_mass := none } := by
  rw [decode_eq_ok endToEndBuf (by decide) (by decide)]
  norm_num [mkMeasurement, endToEndBuf, decodePercent, List.getD_cons_zero,
    List.getD_cons_succ]

/-- Claim C3 (amended): decoding `F7 00 B4 16 FF 32 FF FF` + 12 zero bytes
yields weight 58.12 kg, body fat absent, body water 5.0 %, muscle mass
absent, bone mass absent. -/
theorem end_to_end_decoding :
    decode_notification endToEndBuf =
      Except.ok { weight := (5812 : ℚ) / 100, body_fat := none,
                  body_water := some 5, muscle_mass := none, bone_mass := none } := by
  rw [decode_eq_ok endToEndBuf (by decide) (by decide)]
  norm_num [mkMeasurement, endToEndBuf, decodePercent, List.getD_cons_zero,
    List.getD_cons_succ]

/-- Claim C4: buffers shorter than 20 bytes are rejected as too short, buffers
of length at least 20 with a wrong first byte are rejected as a bad header,
and in both cases the notification handler leaves the entity state
untouched. -/
theorem decoder_rejections (data : List Nat) :
    (data.length < 20 →
      decode_notification data = .error .tooShort ∧
      ∀ upd now s, notification_handler upd now s data = s) ∧
    (20 ≤ data.length → data.getD 0 0 ≠ FRAME_MARKER →
      decode_notification data = .error .badHeader ∧
      ∀ upd now s, notification_handler upd now s data = s) := by
  constructor
  · intro h
    have hd : decode_notification data = .error .tooShort := by
      unfold decode_notification
      rw [if_pos h]
    exact ⟨hd, fun upd now s => by unfold notification_handler; rw [hd]⟩
  · intro h1 h2
    have hd : decode_notification data = .error .badHeader := by
      unfold decode_notification
      rw [if_neg (by omega), if_pos h2]
    exact ⟨hd, fun upd now s => by unfold notification_handler; rw [hd]⟩

/-- Claim C4 witness: the empty buffer is too short; twenty zero bytes have a
bad header. -/
theorem decoder_rejections_witness :
    (decode_notification [] = .error .tooShort ∧
      ∀ upd now s, notification_handler upd now s [] = s) ∧
    (decode_notification badHeaderBuf = .error .badHeader ∧
      ∀ upd now s, notification_handler upd now s badHeaderBuf = s) :=
  ⟨(decoder_rejections []).1 (by decide),
   (decoder_rejections badHeaderBuf).2 (by decide) (by decide)⟩

/-- Claim C9: every measurement produced by a successful decode of a byte
buffer has a non-negative weight, and each optional field is either absent or
a valid percentage value; the sentinel byte `0xFF` is turned into absence, so
25.5 is never reported. -/
theorem measurement_invariant (data : List Nat) (m : Measurement)
    (hbytes : ∀ b ∈ data, b < 256)
    (h : decode_notification data = .ok m) :
    0 ≤ m.weight ∧ validPercentField m.body_fat ∧ validPercentField m.body_water ∧
    validPercentField m.muscle_mass ∧ validPercentField m.bone_mass := by
  obtain ⟨hlen, hhdr, hm⟩ := decode_ok_elim data m h
  subst hm
  refine ⟨?_, ?_, ?_, ?_, ?_⟩
  · show (0 : ℚ) ≤ ((data.getD 2 0 + 256 * data.getD 3 0 : Nat) : ℚ) / 100
    positivity
  all_goals exact decodePercent_valid _ (getD_byte_bound data hbytes _ (by omega))

/-- Claim C9 witness at the spec's end-to-end buffer. -/
theorem measurement_invariant_witness :
    0 ≤ ((5812 : ℚ) / 100) ∧ validPercentField none ∧ validPercentField (some 5) ∧
    validPercentField none ∧ validPercentField none :=
  measurement_invariant endToEndBuf
    { weight := (5812 : ℚ) / 100, body_fat := none, body_water := some 5,
      muscle_mass := none, bone_mass := none }
    (by decide)
    (by
      rw [decode_eq_ok endToEndBuf (by decide) (by decide)]
      norm_num [mkMeasurement, endToEndBuf, decodePercent, List.getD_cons_zero,
        List.getD_cons_succ])

/-- A buffer the decoder rejects leaves the handler state untouched. -/
theorem handler_no_decode (upd : BaseState → BaseState) (now : Nat)
    (s : BaseState) (data : List Nat)
    (h : (decode_notification data).toBool = false) :
    notification_handler upd now s data = s := by
  unfold notification_handler
  cases hd : decode_notification data with
  | error e => rfl
  | ok m =>
    rw [hd] at h
    simp [Except.toBool] at h

/-- A notification window in which no buffer decodes leaves the state
untouched. -/
theorem processFrames_no_valid (upd : BaseState → BaseState) (now : Nat)
    (frames : List (List Nat)) (s : BaseState)
    (h : frames.all (fun f => !(decode_notification f).toBool) = true) :
    processFrames upd now frames s = s := by
  induction frames generalizing s with
  | nil => rfl
  | cons f fs ih =>
    rw [List.all_cons, Bool.and_eq_true] at h
    have h1 : (decode_notification f).toBool = false := by
      simpa using h.1
    show processFrames upd now fs (notification_handler upd now s f) = s
    rw [handler_no_decode upd now s f h1]
    exact ih s h.2

/-- Claim C6: a tick that obtains no decodable frame — device not sighted, not
connectable, connect error, an exception before any frame, or only malformed
frames during the wait — leaves the previously reported state untouched, and
no exception escapes `async_update` in any environment. -/
theorem failed_cycle_keeps_state (upd : BaseState → BaseState) (now : Nat)
    (env : Env) (s : BaseState) :
    (cycleFailed env = true → (async_update upd now env s).state = s) ∧
    (async_update upd now env s).escaped = none := by
  obtain ⟨dev, cexc, sexc, wexc, frames, stexc⟩ := env
  unfold async_update cycleFailed session_body
  constructor
  · intro hf
    cases dev with
    | none => rfl
    | some d =>
      dsimp only at hf ⊢
      by_cases hr : is_ready d = true
      · simp only [if_pos hr]
        cases cexc with
        | some e => rfl
        | none =>
          cases sexc with
          | some e => rfl
          | none =>
            cases wexc with
            | some e => rfl
            | none =>
              simp only [hr, Bool.not_true, Option.isSome_none, Bool.false_or] at hf
              exact processFrames_no_valid upd now frames s hf
      · simp only [if_neg hr]
  · cases dev with
    | none => rfl
    | some d =>
      dsimp only
      by_cases hr : is_ready d = true
      · simp only [if_pos hr]
        cases cexc with
        | some e => cases e <;> rfl
        | none =>
          cases sexc with
          | some e => cases e <;> rfl
          | none =>
            cases wexc with
            | some e => cases e <;> rfl
            | none =>
              cases stexc with
              | some e => cases e <;> rfl
              | none => rfl
      · simp only [if_neg hr]

/-- Claim C6 witness: a tick with the device out of sight changes nothing and
raises nothing. -/
theorem failed_cycle_keeps_state_witness :
    (async_update weight_update 0 notSightedEnv emptyState).state = emptyState ∧
    (async_update weight_update 0 notSightedEnv emptyState).escaped = none :=
  ⟨(failed_cycle_keeps_state weight_update 0 notSightedEnv emptyState).1 (by decide),
   (failed_cycle_keeps_state weight_update 0 notSightedEnv emptyState).2⟩

/-- Claim C7: after every tick, whatever the outcome — not sighted, not
connectable, connect failure, any exception inside the session body, or
success — no connection handle remains open and no notification subscription
remains live: the `async with` exit disconnects on every path, and a failed
connect never opened a handle. -/
theorem session_cleanup (upd : BaseState → BaseState) (now : Nat) (env : Env)
    (s : BaseState) :
    (async_update upd now env s).handle_open = false ∧
    (async_update upd now env s).notifying = false := by
  obtain ⟨dev, cexc, sexc, wexc, frames, stexc⟩ := env
  unfold async_update
  cases dev with
  | none => exact ⟨rfl, rfl⟩
  | some d =>
    dsimp only
    by_cases hr : is_ready d = true
    · simp only [if_pos hr]
      cases cexc with
      | some e => exact ⟨rfl, rfl⟩
      | none => exact ⟨rfl, rfl⟩
    · simp only [if_neg hr]
      exact ⟨trivial, trivial⟩

/-- Claim C8: a buffer the decoder rejects does not disturb the wait — the
handler leaves the state unchanged, dropping it from the window's frame list
changes nothing — and a later valid frame still yields the session's
measurement for every subclass hook that does not touch the stored
dictionary. -/
theorem malformed_frame_ignored (upd : BaseState → BaseState) (now : Nat)
    (s : BaseState) (bad : List Nat) (rest : List (List Nat))
    (hupd : ∀ st, (upd st).measurement_data = st.measurement_data)
    (hbad : (decode_notification bad).toBool = false) :
    notification_handler upd now s bad = s ∧
    processFrames upd now (bad :: rest) s = processFrames upd now rest s ∧
    (∀ good m, decode_notification good = .ok m →
      (processFrames upd now [bad, good] s).measurement_data = some m) := by
  have h1 : notification_handler upd now s bad = s := handler_no_decode upd now s bad hbad
  refine ⟨h1, ?_, ?_⟩
  · show processFrames upd now rest (notification_handler upd now s bad) =
      processFrames upd now rest s
    rw [h1]
  · intro good m hg
    show (processFrames upd now [good] (notification_handler upd now s bad)).measurement_data
        = some m
    rw [h1]
    show (notification_handler upd now s good).measurement_data = some m
    unfold notification_handler
    rw [hg, hupd]

/-- Claim C8 witness: a zero-filled 20-byte buffer is ignored mid-wait and the
spec's end-to-end frame arriving afterwards still produces its measurement. -/
theorem malformed_frame_ignored_witness :
    notification_handler weight_update 0 emptyState badHeaderBuf = emptyState ∧
    processFrames weight_update 0 (badHeaderBuf :: [endToEndBuf]) emptyState =
      processFrames weight_update 0 [endToEndBuf] emptyState ∧
    (∀ good m, decode_notification good = .ok m →
      (processFrames weight_update 0 [badHeaderBuf, good] emptyState).measurement_data
        = some m) :=
  malformed_frame_ignored weight_update 0 emptyState badHeaderBuf [endToEndBuf]
    (fun st => by unfold weight_update; split <;> rfl)
    (by decide)

/-- Claim C10: after a successful decode, each optional-field sensor keeps its
previously reported value when the frame marks its field absent and takes the
frame's value when present; the weight sensor's field is always carried by the
frame and always taken. -/
theorem absent_field_keeps_value (data : List Nat) (m : Measurement)
    (s : BaseState) (now : Nat) (h : decode_notification data = .ok m) :
    ((m.body_fat = none →
        (notification_handler body_fat_update now s data).native_value
          = s.native_value) ∧
      ∀ v, m.body_fat = some v →
        (notification_handler body_fat_update now s data).native_value = some v) ∧
    ((m.body_water = none →
        (notification_handler body_water_update now s data).native_value
          = s.native_value) ∧
      ∀ v, m.body_water = some v →
        (notification_handler body_water_update now s data).native_value = some v) ∧
    ((m.muscle_mass = none →
        (notification_handler muscle_mass_update now s data).native_value
          = s.native_value) ∧
      ∀ v, m.muscle_mass = some v →
        (notification_handler muscle_mass_update now s data).native_value = some v) ∧
    ((m.bone_mass = none →
        (notification_handler bone_mass_update now s data).native_value
          = s.native_value) ∧
      ∀ v, m.bone_mass = some v →
        (notification_handler bone_mass_update now s data).native_value = some v) ∧
    (notification_handler weight_update now s data).native_value = some m.weight := by
  have hh : ∀ upd, notification_handler upd now s data =
      upd { s with measurement_data := some m, last_measurement_time := some now } := by
    intro upd
    unfold notification_handler
    rw [h]
  refine ⟨⟨?_, ?_⟩, ⟨?_, ?_⟩, ⟨?_, ?_⟩, ⟨?_, ?_⟩, ?_⟩
  · intro hb; rw [hh]; simp [body_fat_update, hb]
  · intro v hb; rw [hh]; simp [body_fat_update, hb]
  · intro hb; rw [hh]; simp [body_water_update, hb]
  · intro v hb; rw [hh]; simp [body_water_update, hb]
  · intro hb; rw [hh]; simp [muscle_mass_update, hb]
  · intro v hb; rw [hh]; simp [muscle_mass_update, hb]
  · intro hb; rw [hh]; simp [bone_mass_update, hb]
  · intro v hb; rw [hh]; simp [bone_mass_update, hb]
  · rw [hh]; simp [weight_update]

/-- Claim C10 witness at the spec's end-to-end frame, whose body fat, muscle
mass and bone mass are absent while body water is 5.0: a sensor state with a
previously reported value 1 keeps it for the absent fields. -/
theorem absent_field_keeps_value_witness :
    (((none : Option ℚ) = none →
        (notification_handler body_fat_update 0 c10state endToEndBuf).native_value
          = c10state.native_value) ∧
      ∀ v, (none : Option ℚ) = some v →
        (notification_handler body_fat_update 0 c10state endToEndBuf).native_value
          = some v) ∧
    ((some (5 : ℚ) = none →
        (notification_handler body_water_update 0 c10state endToEndBuf).native_value
          = c10state.native_value) ∧
      ∀ v, some (5 : ℚ) = some v →
        (notification_handler body_water_update 0 c10state endToEndBuf).native_value
          = some v) ∧
    (((none : Option ℚ) = none →
        (notification_handler muscle_mass_update 0 c10state endToEndBuf).native_value
          = c10state.native_value) ∧
      ∀ v, (none : Option ℚ) = some v →
        (notification_handler muscle_mass_update 0 c10state endToEndBuf).native_value
          = some v) ∧
    (((none : Option ℚ) = none →
        (notification_handler bone_mass_update 0 c10state endToEndBuf).native_value
          = c10state.native_value) ∧
      ∀ v, (none : Option ℚ) = some v →
        (notification_handler bone_mass_update 0 c10state endToEndBuf).native_value
          = some v) ∧
    (notification_handler weight_update 0 c10state endToEndBuf).native_value
      = some ((5812 : ℚ) / 100) :=
  absent_field_keeps_value endToEndBuf
    { weight := (5812 : ℚ) / 100, body_fat := none, body_water := some 5,
      muscle_mass := none, bone_mass := none } c10state 0
    (by
      rw [decode_eq_ok endToEndBuf (by decide) (by decide)]
      norm_num [mkMeasurement, endToEndBuf, decodePercent, List.getD_cons_zero,
        List.getD_cons_succ])

/-- Claim C5 counterexample: the spec's readiness policy — connectable or an
advertised service count at or above the threshold (14 lies in the spec's
observed 8–14 range) — declares this sighted device ready, yet the tick
attempts no connection: the code consults only the connectable flag. -/
theorem readiness_policy_counterexample :
    is_ready_spec 14 notConnectableDev = true ∧
    is_ready notConnectableDev = false ∧
    (async_update weight_update 0 notConnectableEnv emptyState).connect_attempted
      = false := by
  decide

/-- Claim C5 (amended): a connect is attempted exactly when the device is
sighted and its advertisement's connectable flag is set — the code's
readiness test is that flag alone and the advertised service count is never
consulted — and readiness does not guarantee success: a failing connect is
swallowed as a normal failure outcome with the reported state kept. -/
theorem connect_policy (upd : BaseState → BaseState) (now : Nat) (env : Env)
    (s : BaseState) :
    (async_update upd now env s).connect_attempted =
      (match env.device with
       | some dev => is_ready dev
       | none => false) ∧
    (∀ dev, is_ready dev = dev.connectable) ∧
    (env.connect_exc.isSome = true →
      (async_update upd now env s).state = s ∧
      (async_update upd now env s).escaped = none) := by
  obtain ⟨dev, cexc, sexc, wexc, frames, stexc⟩ := env
  unfold async_update
  refine ⟨?_, fun d => rfl, ?_⟩
  · cases dev with
    | none => rfl
    | some d =>
      dsimp only
      by_cases hr : is_ready d = true
      · simp only [if_pos hr, hr]
        cases cexc <;> rfl
      · simp only [if_neg hr]
        cases hready : is_ready d with
        | false => rfl
        | true => exact absurd hready hr
  · intro hc
    cases dev with
    | none => exact ⟨rfl, rfl⟩
    | some d =>
      dsimp only
      by_cases hr : is_ready d = true
      · simp only [if_pos hr]
        cases cexc with
        | some e => exact ⟨rfl, by cases e <;> rfl⟩
        | none => simp at hc
      · simp only [if_neg hr]
        constructor <;> trivial

/-- Claim C5 witness: a connectable sighted device whose connect raises a
`BleakError` — the connect is attempted, the failure is swallowed, the state
is kept. -/
theorem connect_policy_witness :
    (async_update weight_update 0 connectFailEnv emptyState).connect_attempted
      = true ∧
    (async_update weight_update 0 connectFailEnv emptyState).state = emptyState ∧
    (async_update weight_update 0 connectFailEnv emptyState).escaped = none :=
  ⟨((connect_policy weight_update 0 connectFailEnv emptyState).1).trans (by decide),
   ((connect_policy weight_update 0 connectFailEnv emptyState).2.2 (by decide)).1,
   ((connect_policy weight_update 0 connectFailEnv emptyState).2.2 (by decide)).2⟩

/-- A permitted scheduling event keeps the number of entities. -/
theorem applyTick_length (st : List Phase) (e : TickEvent) (st' : List Phase)
    (h : applyTick st e = some st') : st'.length = st.length := by
  cases e with
  | start i =>
    simp only [applyTick] at h
    split at h
    · injection h with h
      rw [← h]
      exact List.length_set st i _
    · simp at h
  | finish i =>
    simp only [applyTick] at h
    split at h
    · injection h with h
      rw [← h]
      exact List.length_set st i _
    · simp at h

/-- A permitted event sequence keeps the number of entities. -/
theorem runTicks_length (evs : List TickEvent) (st st' : List Phase)
    (h : runTicks st evs = some st') : st'.length = st.length := by
  induction evs generalizing st with
  | nil =>
    unfold runTicks at h
    injection h with h
    rw [h]
  | cons e es ih =>
    unfold runTicks at h
    cases ha : applyTick st e with
    | none =>
      rw [ha] at h
      simp at h
    | some st2 =>
      rw [ha] at h
      rw [ih st2 h, applyTick_length st e st2 ha]

/-- Claim C2 counterexample: the five entities created for one address start
idle; the scheduler accepts a tick for entity 0 and then, while entity 0's
session is still executing, a tick for entity 1 of the same address — two
connect-running sessions for one address are in flight at once. -/
theorem single_session_counterexample :
    runTicks (initPhases "A") [TickEvent.start 0, TickEvent.start 1] =
      some [Phase.inSession, Phase.inSession, Phase.idle, Phase.idle, Phase.idle] ∧
    inFlight [Phase.inSession, Phase.inSession, Phase.idle, Phase.idle, Phase.idle]
      = 2 ∧
    (async_setup_entry "A").length = 5 ∧
    (async_setup_entry "A").all (fun e => decide (e.address = "A")) = true := by
  decide

/-- Claim C2 (amended): one entity's own updates never overlap — a start tick
for an entity already in session is refused — but the sessions in flight for
the one address are bounded only by the five registered entities, not by
one. -/
theorem per_entity_exclusion (address : String) (evs : List TickEvent)
    (st : List Phase) (h : runTicks (initPhases address) evs = some st) :
    inFlight st ≤ (async_setup_entry address).length ∧
    ∀ i, st.get? i = some Phase.inSession →
      applyTick st (TickEvent.start i) = none := by
  constructor
  · have hl : st.length = (initPhases address).length := runTicks_length _ _ _ h
    have hc : inFlight st ≤ st.length := List.countP_le_length _
    have hi : (initPhases address).length = (async_setup_entry address).length := by
      simp [initPhases]
    omega
  · intro i hi2
    simp only [applyTick]
    rw [hi2]

/-- Claim C2 amended-claim witness: after one accepted start tick, entity 0 is
in session, the bound holds, and a second start tick for entity 0 itself is
refused. -/
theorem per_entity_exclusion_witness :
    inFlight [Phase.inSession, Phase.idle, Phase.idle, Phase.idle, Phase.idle] ≤
      (async_setup_entry "A").length ∧
    ∀ i, [Phase.inSession, Phase.idle, Phase.idle, Phase.idle,
        Phase.idle].get? i = some Phase.inSession →
      applyTick [Phase.inSession, Phase.idle, Phase.idle, Phase.idle, Phase.idle]
        (TickEvent.start i) = none :=
  per_entity_exclusion "A" [TickEvent.start 0]
    [Phase.inSession, Phase.idle, Phase.idle, Phase.idle, Phase.idle] (by decide)
